import Mathlib

/-!
# Verification of the MCP-Spend-Spotter repository against its specification

Shallow embedding of the Python source under `src/` into Lean 4, together
with theorems settling the frozen claims C1..C10.

Conventions of the embedding:
* Python strings are Lean `String`s; character-level operations work on
  `String.toList` (Python indexes/slices strings by code point, as Lean's
  `List Char` view does).
* Python `str.upper()` / `str.lower()` are modelled as the ASCII maps
  `Char.toUpper` / `Char.toLower` (all literals compared against in the
  source are ASCII).
* Python `needle in hay` is list-infix on the character lists.
* Machine floats only occur as parsed currency values and rerank scores;
  they are modelled as `Rat` (exact), which is faithful for the order
  comparisons the code performs.
* JSON (de)serialization between handlers is modelled as the identity on
  the structured values it transports.
-/

namespace SpendSpotter

/-! ## Python string primitives -/

/-- Python `needle in hay` substring test (character-exact). -/
def pyIn (needle hay : String) : Bool :=
  decide (needle.toList <:+: hay.toList)

/-- Python `s.startswith(p)`. -/
def pyStartsWith (s p : String) : Bool :=
  decide (p.toList <+: s.toList)

/-- Python `str.upper()` restricted to ASCII. -/
def pyUpper (s : String) : String :=
  ⟨s.toList.map Char.toUpper⟩

/-- Python `str.lower()` restricted to ASCII. -/
def pyLower (s : String) : String :=
  ⟨s.toList.map Char.toLower⟩

/-- Python's whitespace set for `str.strip()` (ASCII part). -/
def pyIsSpace (c : Char) : Bool :=
  c = ' ' || c = '\t' || c = '\n' || c = '\x0d' || c = '\x0b' || c = '\x0c'

/-- Python `s.strip()`. -/
def pyStrip (s : String) : String :=
  ⟨((s.toList.dropWhile pyIsSpace).reverse.dropWhile pyIsSpace).reverse⟩

/-- Python `s.rstrip(";")`. -/
def pyRstripSemi (s : String) : String :=
  ⟨(s.toList.reverse.dropWhile (· = ';')).reverse⟩

/-- Python `c in s` for a single character. -/
def pyCharIn (c : Char) (s : String) : Bool :=
  s.toList.contains c

/-- Python `int(s)` for decimal strings: strips whitespace, then an optional
sign followed by one or more ASCII digits; anything else raises. -/
def pyInt (s : String) : Option Int :=
  let t := (pyStrip s).toList
  let core : List Char → Option Nat := fun ds =>
    if ds ≠ [] ∧ ds.all Char.isDigit then
      some (ds.foldl (fun n c => 10 * n + (c.toNat - '0'.toNat)) 0)
    else none
  match t with
  | '-' :: ds => (core ds).map (fun n => -(n : Int))
  | '+' :: ds => (core ds).map (fun n => (n : Int))
  | ds => (core ds).map (fun n => (n : Int))

/-- Python `float(s)` for plain decimal forms `[sign]digits[.digits]`
(exponents, `inf` and `nan` are not produced by the data this code parses
and are modelled as a parse failure). -/
def pyFloat (s : String) : Option Rat :=
  let t := (pyStrip s).toList
  let core : List Char → Option Rat := fun ds =>
    let intPart := ds.takeWhile Char.isDigit
    let rest := ds.dropWhile Char.isDigit
    let mk : List Char → List Char → Option Rat := fun ip fp =>
      if (ip ≠ [] ∨ fp ≠ []) ∧ ip.all Char.isDigit ∧ fp.all Char.isDigit then
        some ((ip.foldl (fun n c => 10 * n + (c.toNat - '0'.toNat)) 0 : Nat) +
          (fp.foldl (fun n c => 10 * n + (c.toNat - '0'.toNat)) 0 : Nat) /
            ((10 : Rat) ^ fp.length))
      else none
    match rest with
    | [] => mk intPart []
    | '.' :: fp => mk intPart fp
    | _ => none
  match t with
  | '-' :: ds => (core ds).map (fun q => -q)
  | '+' :: ds => core ds
  | ds => core ds

/-- Python `s.replace(old, new)` for single-character `old` deleted
(`s.replace(c, "")`), the only form the validators use. -/
def pyDropChar (c : Char) (s : String) : String :=
  ⟨s.toList.filter (· ≠ c)⟩

/-! ## Python values and result rows

A query result row is a dict from column name to a SQLite/JSON value.
`Value.f` carries floats as exact rationals. -/

inductive Value where
  | s (v : String)
  | i (v : Int)
  | f (v : Rat)
  | none
deriving DecidableEq, Repr

/-- A result row: insertion-ordered dict, modelled as an association list. -/
abbrev Row := List (String × Value)

/-- Python `field in row` dict-membership / lookup. -/
def rowGet (row : Row) (field : String) : Option Value :=
  (row.find? (fun p => p.1 = field)).map (·.2)

/-! ## `src/chat/agent_functions/validators/sql_validator.py` -/

/-- The shared destructive-keyword list. -/
def destructive_keywords : List String :=
  ["DROP", "DELETE", "INSERT", "UPDATE", "ALTER",
   "CREATE", "TRUNCATE", "REPLACE", "MERGE"]

/-- The match test of both validators' keyword loop:
`f' {keyword} ' in f' {sql_upper} ' or sql_upper.startswith(keyword + ' ')`. -/
def keywordMatches (sql_upper keyword : String) : Bool :=
  pyIn (" " ++ keyword ++ " ") (" " ++ sql_upper ++ " ") ||
    pyStartsWith sql_upper (keyword ++ " ")

/-- `sql_validator` (blocking form): first destructive-keyword match, then
the multiple-statement check, each short-circuiting to `(False, [warning])`;
otherwise `(True, [])`. -/
def sql_validator (sql : String) : Bool × List String :=
  let sql_upper := pyStrip (pyUpper sql)
  match destructive_keywords.find? (fun k => keywordMatches sql_upper k) with
  | some keyword =>
      (false, ["[SQL_SAFETY] BLOCKED: Destructive operation '" ++ keyword ++
        "' detected in query"])
  | Option.none =>
      if pyCharIn ';' (pyRstripSemi sql) then
        (false, ["[SQL_SAFETY] BLOCKED: Multiple SQL statements detected (SQL injection risk)"])
      else
        (true, [])

/-! ## `src/chat/agent_functions/sql/validator.py` -/

/-- `validate_sql_query` (advisory form): all checks run unconditionally and
accumulate warnings. -/
def validate_sql_query (sql : String) : List String :=
  let sql_upper := pyUpper sql
  let w1 := (destructive_keywords.filter (fun k => keywordMatches sql_upper k)).map
    (fun k => "[SQL_VALIDATOR] WARNING: Destructive operation '" ++ k ++
      "' detected in query")
  let w2 := if pyCharIn ';' (pyRstripSemi sql) then
      ["[SQL_VALIDATOR] WARNING: Multiple SQL statements detected (SQL injection risk)"]
    else []
  let w3 := if ¬ pyStartsWith (pyStrip sql_upper) "SELECT" then
      ["[SQL_VALIDATOR] WARNING: Non-SELECT query detected"]
    else []
  let w4 := if ¬ pyIn "WHERE" sql_upper ∧ ¬ pyIn "LIMIT" sql_upper then
      ["[SQL_VALIDATOR] WARNING: Query has no WHERE or LIMIT clause (full table scan)"]
    else []
  w1 ++ w2 ++ w3 ++ w4

/-! ## `validate_query_results` (result-quality validator) -/

/-- The monetary fields inspected by the result validator. -/
def money_fields : List String :=
  ["payment", "expenditures", "receipts", "net_appropriations", "total", "amount"]

/-- Numeric reading of a monetary cell: a string has `$`/`,` stripped and is
parsed as a float (parse failure ⇒ skipped, `continue`); ints and floats are
used directly; other values fail the `isinstance` check and are skipped. -/
def moneyValue : Value → Option Rat
  | Value.s v => pyFloat (pyDropChar ',' (pyDropChar '$' v))
  | Value.i v => some (v : Rat)
  | Value.f v => some v
  | Value.none => Option.none

/-- Rendering of a parsed monetary value in the warning f-string: a string
cell was rebound to the parsed float before formatting. -/
def moneyRepr : Value → String
  | Value.s v =>
      match pyFloat (pyDropChar ',' (pyDropChar '$' v)) with
      | some q => toString q
      | Option.none => ""
  | Value.i v => toString v
  | Value.f v => toString v
  | Value.none => ""

/-- The per-row money-field warnings (inner loop of the sample scan). -/
def moneyWarnings (i : Nat) (row : Row) : List String :=
  money_fields.filterMap (fun field =>
    match rowGet row field with
    | some v =>
        match moneyValue v with
        | some q =>
            if q < 0 then
              some ("[RESULT_VALIDATOR] WARNING: Negative monetary value in row " ++
                toString (i + 1) ++ ": " ++ field ++ "=" ++ moneyRepr v)
            else Option.none
        | Option.none => Option.none
    | Option.none => Option.none)

/-- Python rendering of the raw `fiscal_year` cell in the warning f-string. -/
def valueRepr : Value → String
  | Value.s v => v
  | Value.i v => toString v
  | Value.f v => toString v
  | Value.none => "None"

/-- The fiscal-year check of one sampled row:
`int(year) if isinstance(year, str) else year`, then membership in
`(2024, 2025, 2026)`; a failing `int()` gives the invalid-format warning. -/
def fiscalWarnings (i : Nat) (row : Row) : List String :=
  match rowGet row "fiscal_year" with
  | some (Value.s y) =>
      match pyInt y with
      | some n =>
          if n = 2024 ∨ n = 2025 ∨ n = 2026 then []
          else ["[RESULT_VALIDATOR] WARNING: Unexpected fiscal year in row " ++
            toString (i + 1) ++ ": " ++ y]
      | Option.none =>
          ["[RESULT_VALIDATOR] WARNING: Invalid fiscal year format in row " ++
            toString (i + 1) ++ ": " ++ y]
  | some (Value.i n) =>
      if n = 2024 ∨ n = 2025 ∨ n = 2026 then []
      else ["[RESULT_VALIDATOR] WARNING: Unexpected fiscal year in row " ++
        toString (i + 1) ++ ": " ++ toString n]
  | some (Value.f q) =>
      if q = 2024 ∨ q = 2025 ∨ q = 2026 then []
      else ["[RESULT_VALIDATOR] WARNING: Unexpected fiscal year in row " ++
        toString (i + 1) ++ ": " ++ toString q]
  | some Value.none =>
      -- `int(None)` is not taken (`None` is not a `str`), and the bare
      -- comparison `None not in (2024, 2025, 2026)` is true.
      ["[RESULT_VALIDATOR] WARNING: Unexpected fiscal year in row " ++
        toString (i + 1) ++ ": None"]
  | Option.none => []

/-- `validate_query_results(results, sql, query_error="")`. -/
def validate_query_results (results : List Row) (sql : String)
    (query_error : String := "") : List String :=
  if query_error ≠ "" then
    ["[QUERY_FAILED] " ++ query_error]
  else if sql ≠ "" ∧ results.length = 0 then
    ["[EMPTY_RESULTS] Query returned 0 rows — SQL may need correction"]
  else
    let sample := results.take 10
    let rowWarnings :=
      (sample.enum.map (fun p => moneyWarnings p.1 p.2 ++ fiscalWarnings p.1 p.2)).flatten
    let largeWarnings :=
      if results.length > 10000 then
        ["[RESULT_VALIDATOR] WARNING: Large result set returned (" ++
          toString results.length ++ " rows) - may impact performance"]
      else []
    rowWarnings ++ largeWarnings

/-! ## `src/chat/agent_functions/sql/query_planner.py` -/

/-- `select_tool`: case-insensitive substring search for `vendor_payments`
then `budget`; defaults to the vendor tool. -/
def select_tool (sql : String) : String :=
  let sql_lower := pyLower sql
  if pyIn "vendor_payments" sql_lower then "query_vendor_payments"
  else if pyIn "budget" sql_lower then "query_budget"
  else "query_vendor_payments"

/-- A query plan as returned by `plan_query`, with the LLM-generated SQL as
an input (the model call is the external environment). -/
structure QueryPlan where
  tool : String
  sql : String
  warnings : List String
deriving Repr

/-- `plan_query` after the LLM produced `sql`: advisory validation (never
blocking) and tool selection. -/
def plan_query (sql : String) : QueryPlan :=
  { tool := select_tool sql
    sql := sql
    warnings := validate_sql_query sql }

/-! ## `src/chat/tools/implementations.py` and `handlers.py`

The sqlite layer is abstracted as `dbRun : String → Except String (List Row)`
(an exception message or the fetched rows).  `DbCall` records every
statement handed to `cursor.execute`, so theorems can speak about what was
and was not executed. -/

/-- Outcome of `execute_vendor_query` / `execute_budget_query`:
the Python result or exception, plus the list of statements that reached
`cursor.execute` on an opened connection. -/
structure ExecOutcome where
  result : Except String (List Row)
  connectionOpened : Bool
  executedStatements : List String
deriving Repr

/-- `execute_vendor_query`: the `SELECT`-prefix guard raises `ValueError`
before `sqlite3.connect`; otherwise the connection opens and the statement
is executed. -/
def execute_vendor_query (dbRun : String → Except String (List Row))
    (query : String) : ExecOutcome :=
  if ¬ pyStartsWith (pyUpper (pyStrip query)) "SELECT" then
    { result := Except.error "ValueError: Only SELECT queries are allowed"
      connectionOpened := false
      executedStatements := [] }
  else
    { result := dbRun query
      connectionOpened := true
      executedStatements := [query] }

/-- `execute_budget_query`: identical guard and structure, against the
budget database connection. -/
def execute_budget_query (dbRun : String → Except String (List Row))
    (query : String) : ExecOutcome :=
  if ¬ pyStartsWith (pyUpper (pyStrip query)) "SELECT" then
    { result := Except.error "ValueError: Only SELECT queries are allowed"
      connectionOpened := false
      executedStatements := [] }
  else
    { result := dbRun query
      connectionOpened := true
      executedStatements := [query] }

/-- An MCP tool envelope; the JSON text payload is modelled structurally. -/
structure Envelope where
  isError : Bool
  rows : List Row
  errorText : String
deriving Repr

/-- `handle_query_vendor_payments`: success envelope with the rows, or a
caught exception as an error envelope. -/
def handle_query_vendor_payments (dbRun : String → Except String (List Row))
    (query : String) : Envelope × List String :=
  let out := execute_vendor_query dbRun query
  match out.result with
  | Except.ok rs => ({ isError := false, rows := rs, errorText := "" }, out.executedStatements)
  | Except.error e =>
      ({ isError := true, rows := [], errorText := "Error executing query: " ++ e },
        out.executedStatements)

/-- `handle_query_budget`: same shape for the budget database. -/
def handle_query_budget (dbRun : String → Except String (List Row))
    (query : String) : Envelope × List String :=
  let out := execute_budget_query dbRun query
  match out.result with
  | Except.ok rs => ({ isError := false, rows := rs, errorText := "" }, out.executedStatements)
  | Except.error e =>
      ({ isError := true, rows := [], errorText := "Error executing query: " ++ e },
        out.executedStatements)

/-- Result of `handle_query_sql`: the tool envelope plus the statements
that reached a database cursor anywhere below it. -/
structure QuerySqlOutcome where
  isError : Bool
  sql : String
  warnings : List String
  executedStatements : List String
deriving Repr

/-- `handle_query_sql` with the planner's LLM output `llmSql` as input:
plans, logs (but never acts on) the advisory warnings, dispatches to the
selected direct-query handler, and assembles the response.  No call to
`sql_validator` occurs on this path. -/
def handle_query_sql (dbRunVendor dbRunBudget : String → Except String (List Row))
    (userQuery llmSql : String) : QuerySqlOutcome :=
  if userQuery = "" then
    { isError := true, sql := "", warnings := [], executedStatements := [] }
  else
    let plan := plan_query llmSql
    if plan.tool = "query_vendor_payments" then
      let (_, executed) := handle_query_vendor_payments dbRunVendor plan.sql
      { isError := false, sql := plan.sql, warnings := plan.warnings
        executedStatements := executed }
    else if plan.tool = "query_budget" then
      let (_, executed) := handle_query_budget dbRunBudget plan.sql
      { isError := false, sql := plan.sql, warnings := plan.warnings
        executedStatements := executed }
    else
      { isError := true, sql := plan.sql, warnings := plan.warnings
        executedStatements := [] }

/-! ## `src/chat/agent_functions/graph_generator/graph_generator.py` -/

/-- The time-series column test over the first row's keys. -/
def hasTimeCol (row : Row) : Bool :=
  row.any (fun p =>
    pyIn "fiscal_year" (pyLower p.1) || pyIn "year" (pyLower p.1))

/-- `detect_graph_type`. -/
def detect_graph_type (results : List Row) (query : String) : String :=
  if results.length < 4 then "none"
  else
    let first := results.headD []
    if hasTimeCol first ∧ results.length ≥ 4 then "line"
    else
      let query_upper := pyUpper query
      if pyIn "LIMIT" query_upper ∧ pyIn "ORDER BY" query_upper then "bar"
      else if pyIn "GROUP BY" query_upper then "bar"
      else "bar"

/-! ## `src/chat/session_manager.py` -/

/-- A role-tagged chat message. -/
structure Message where
  role : String
  content : String
deriving DecidableEq, Repr

/-- `SessionManager._truncate_content(content, max_chars=2000)`. -/
def truncate_content (content : String) (max_chars : Nat := 2000) : String :=
  if content.length ≤ max_chars then content
  else ⟨content.toList.take max_chars⟩ ++ "\n\n[... truncated " ++
    toString (content.length - max_chars) ++ " characters for memory efficiency]"

/-- Python's `lst[-(n):]` trim: for `n = 0` the slice `[-0:]` is `[0:]`,
i.e. the whole list (a Python quirk kept by the embedding); otherwise the
last `n` elements. -/
def pyLastSlice (n : Nat) (l : List Message) : List Message :=
  if n = 0 then l else l.drop (l.length - n)

/-- `add_exchange` acting on one session's message list. -/
def add_exchange (window_size : Nat) (messages : List Message)
    (user_message ai_response : String) : List Message :=
  let truncated_response := truncate_content ai_response 2000
  let m := messages ++
    [{ role := "user", content := user_message },
     { role := "assistant", content := truncated_response }]
  if m.length > window_size * 2 then pyLastSlice (window_size * 2) m else m

/-- A whole conversation: `add_exchange` folded over a list of
(user, assistant) exchanges starting from the freshly created session. -/
def runExchanges (window_size : Nat) (calls : List (String × String)) : List Message :=
  calls.foldl (fun msgs c => add_exchange window_size msgs c.1 c.2) []

/-! ## `src/chat/graph_nodes.py` — the routing decisions and retry loops -/

/-- `MAX_RETRIES` and `MAX_SQL_RETRIES` (both 2). -/
def MAX_RETRIES : Nat := 2
def MAX_SQL_RETRIES : Nat := 2

/-- `GraphNodes.query_validate_route` on the fields of the state it reads. -/
def query_validate_route (validation_warnings : List String)
    (sql_retry_count : Nat) : String :=
  let query_failures := validation_warnings.filter (fun w => pyIn "[QUERY_FAILED]" w)
  if query_failures ≠ [] then "continue"
  else
    let empty_result_issues := validation_warnings.filter (fun w => pyIn "[EMPTY_RESULTS]" w)
    if empty_result_issues ≠ [] ∧ sql_retry_count < MAX_SQL_RETRIES then "retry_query"
    else "continue"

/-- `GraphNodes.should_retry` on the fields of the state it reads. -/
def should_retry (validation_warnings : List String) (retry_count : Nat) : String :=
  let grounding_issues := validation_warnings.filter
    (fun w => pyIn "[DATA_GROUNDING]" w || pyIn "[CONTEXT_GROUNDING]" w)
  if grounding_issues ≠ [] ∧ retry_count < MAX_RETRIES then "retry"
  else "done"

/-- Simulation of the SQL-retry loop against an environment that returns
the same non-empty SQL and zero rows forever.  One step is
`query_sql` (which increments `sql_retry_count` iff `sql_query` is already
set) followed by `validate_query` and `query_validate_route`; the value is
the number of `retry_query` verdicts taken before the loop exits (or fuel
runs out).  `s` is the (non-empty) SQL the environment keeps returning. -/
def simSqlLoop (s : String) : Nat → Bool → Nat → Nat
  | 0, _, _ => 0
  | fuel + 1, sqlSet, c =>
      let c' := if sqlSet then c + 1 else c
      let warnings := validate_query_results [] s ""
      if query_validate_route warnings c' = "retry_query" then
        1 + simSqlLoop s fuel true c'
      else 0

/-- Simulation of the response self-correction loop against an environment
whose grounding validator reproduces the same warning `w` forever.  One
step is `generate_response` (which increments `retry_count` iff the
incoming warning list is non-empty, then clears it), `validate_answer`
(which re-produces `[w]`), and `should_retry`. -/
def simRespLoop (w : String) : Nat → List String → Nat → Nat
  | 0, _, _ => 0
  | fuel + 1, warnings, c =>
      let c' := if warnings ≠ [] then c + 1 else c
      if should_retry [w] c' = "retry" then
        1 + simRespLoop w fuel [w] c'
      else 0

/-! ## `src/chat/agent_functions/rag/retriever.py`

A ChromaDB query result is parallel arrays `ids[0] / documents[0] /
metadatas[0] / distances[0]`; the embedding carries the `i`-indexed
quadruples as a list of `(id, entry)` pairs.  The failed-or-skipped
filtered pass (the Python `{}`) is `Option.none`. -/

/-- One hit of a retrieval pass: document text, metadata, distance. -/
structure Entry where
  text : String
  meta : Row
  dist : Rat
deriving DecidableEq, Repr

/-- Python dict assignment `merged[doc_id] = v`: updates in place if the
key exists (keeping its position), otherwise appends. -/
def dictInsert (m : List (String × Entry)) (k : String) (v : Entry) :
    List (String × Entry) :=
  if m.any (fun p => p.1 = k) then
    m.map (fun p => if p.1 = k then (k, v) else p)
  else m ++ [(k, v)]

/-- The `merged` dict built by `_merge_results`: filtered hits first
(assignment semantics), then unfiltered hits only when the id is absent. -/
def mergeDict (filtered : Option (List (String × Entry)))
    (unfiltered : List (String × Entry)) : List (String × Entry) :=
  let m1 := (filtered.getD []).foldl (fun m p => dictInsert m p.1 p.2) []
  unfiltered.foldl
    (fun m p => if m.any (fun q => q.1 = p.1) then m else m ++ [(p.1, p.2)]) m1

/-- `_merge_results` returns `list(merged.values())`. -/
def merge_results (filtered : Option (List (String × Entry)))
    (unfiltered : List (String × Entry)) : List Entry :=
  (mergeDict filtered unfiltered).map (·.2)

/-- A chunk after reranking: the entry plus its cross-encoder score. -/
structure Scored where
  text : String
  meta : Row
  dist : Rat
  rerank_score : Rat
deriving DecidableEq, Repr

/-- The comparison used by `sorted(chunks, key=lambda x: x['rerank_score'],
reverse=True)`: descending rerank score. -/
def scoreGe (a b : Scored) : Prop := b.rerank_score ≤ a.rerank_score

instance : DecidableRel scoreGe := fun a b =>
  inferInstanceAs (Decidable (b.rerank_score ≤ a.rerank_score))

/-- `_rerank`: score every chunk text, sort descending by score
(`sorted(..., reverse=True)`), return the top `top_k`.  The cross-encoder
is the abstract scorer `scorer : text ↦ score`; tie order among equal
scores is not modelled. -/
def rerank (scorer : String → Rat) (chunks : List Entry) (top_k : Nat) :
    List Scored :=
  if chunks = [] then []
  else
    let scored := chunks.map (fun c =>
      { text := c.text, meta := c.meta, dist := c.dist, rerank_score := scorer c.text })
    (scored.insertionSort scoreGe).take top_k

/-- `HybridRetriever.retrieve` from the two pass results down: merge, the
empty-merge early return, rerank.  The second component records whether the
reranker was invoked. -/
def retrieve (scorer : String → Rat)
    (filtered : Option (List (String × Entry)))
    (unfiltered : List (String × Entry)) (top_k : Nat) :
    List Scored × Bool :=
  let combined_chunks := merge_results filtered unfiltered
  if combined_chunks = [] then ([], false)
  else (rerank scorer combined_chunks top_k, true)

/-! ## `src/DataManage/sql_init.py`

The module-level ETL script, abstracted to the sequence of database-side
events it performs.  `vMain, v2024, v2025` are the numbers of qualifying
rows (`len(row) >= 11`) of the three vendor CSV files, `bMain, b2024`
those of the two budget CSV files. -/

inductive EtlEvent where
  | insertVendor (file : Nat)
  | commitVendor
  | insertBudget (file : Nat)
  | commitBudget
  | queryVendor
  | queryBudget
deriving DecidableEq, Repr

/-- The event trace of one run of the Database Builder, in source order:
all three vendor files are inserted, then `vendor_conn.commit()` (line
142); both budget files are inserted, then `budget_conn.commit()`
(line 192); after the commits the summary reads run — `SELECT COUNT(*)`
on the vendor cursor (line 195) and budget cursor (line 198), then the
3-row sample `SELECT`s on the vendor cursor (line 207) and budget cursor
(line 212). -/
def etlTrace (vMain v2024 v2025 bMain b2024 : Nat) : List EtlEvent :=
  List.replicate vMain (EtlEvent.insertVendor 0) ++
  List.replicate v2024 (EtlEvent.insertVendor 1) ++
  List.replicate v2025 (EtlEvent.insertVendor 2) ++
  [EtlEvent.commitVendor] ++
  List.replicate bMain (EtlEvent.insertBudget 0) ++
  List.replicate b2024 (EtlEvent.insertBudget 1) ++
  [EtlEvent.commitBudget] ++
  [EtlEvent.queryVendor, EtlEvent.queryBudget,
   EtlEvent.queryVendor, EtlEvent.queryBudget]

/-- Number of commits performed on the vendor-database connection. -/
def vendorCommitCount (t : List EtlEvent) : Nat :=
  (t.filter (· = EtlEvent.commitVendor)).length

/-- Number of commits performed on the budget-database connection. -/
def budgetCommitCount (t : List EtlEvent) : Nat :=
  (t.filter (· = EtlEvent.commitBudget)).length

/-- Is the event a vendor-file insert? -/
def isInsertVendor : EtlEvent → Bool
  | EtlEvent.insertVendor _ => true
  | _ => false

/-- Is the event a budget-file insert? -/
def isInsertBudget : EtlEvent → Bool
  | EtlEvent.insertBudget _ => true
  | _ => false

/-! ## Theorems settling the claims -/

/-- C7: `select_tool` searches the lower-cased SQL for `vendor_payments`
first and `budget` second: the vendor tool is returned whenever
`vendor_payments` occurs (even if `budget` also occurs), the budget tool
when only `budget` occurs, and the vendor tool by default when neither
occurs; every SQL string yields one of the two tools, none is rejected. -/
theorem C7_select_tool_priority (sql : String) :
    (pyIn "vendor_payments" (pyLower sql) = true →
      select_tool sql = "query_vendor_payments") ∧
    (pyIn "vendor_payments" (pyLower sql) = false →
      pyIn "budget" (pyLower sql) = true → select_tool sql = "query_budget") ∧
    (pyIn "vendor_payments" (pyLower sql) = false →
      pyIn "budget" (pyLower sql) = false →
      select_tool sql = "query_vendor_payments") ∧
    (select_tool sql = "query_vendor_payments" ∨ select_tool sql = "query_budget") := by
  unfold select_tool
  by_cases h1 : pyIn "vendor_payments" (pyLower sql) = true <;>
    by_cases h2 : pyIn "budget" (pyLower sql) = true <;>
    simp [h1, h2]

/-- Witness for C7 at the spec's concrete inputs. -/
theorem C7_select_tool_priority_witness :
    select_tool "SELECT * FROM VENDOR_PAYMENTS" = "query_vendor_payments" ∧
    select_tool "SELECT * FROM unknown_table" = "query_vendor_payments" ∧
    select_tool "SELECT * FROM budget" = "query_budget" :=
  ⟨(C7_select_tool_priority _).1 (by decide),
   (C7_select_tool_priority _).2.2.1 (by decide) (by decide),
   (C7_select_tool_priority _).2.1 (by decide) (by decide)⟩

/-- C9: for every query whose stripped text does not start
case-insensitively with `SELECT`, both `execute_vendor_query` and
`execute_budget_query` raise `ValueError` before opening a database
connection; no such statement reaches a cursor of either database,
regardless of whether any validator ran. -/
theorem C9_non_select_rejected_before_connect
    (dbV dbB : String → Except String (List Row)) (q : String)
    (h : pyStartsWith (pyUpper (pyStrip q)) "SELECT" = false) :
    execute_vendor_query dbV q =
      { result := Except.error "ValueError: Only SELECT queries are allowed",
        connectionOpened := false, executedStatements := [] } ∧
    execute_budget_query dbB q =
      { result := Except.error "ValueError: Only SELECT queries are allowed",
        connectionOpened := false, executedStatements := [] } := by
  unfold execute_vendor_query execute_budget_query
  simp [h]

/-- Witness for C9 at a destructive statement. -/
theorem C9_non_select_rejected_before_connect_witness :
    execute_vendor_query (fun _ => Except.ok []) "DROP TABLE vendor_payments" =
      { result := Except.error "ValueError: Only SELECT queries are allowed",
        connectionOpened := false, executedStatements := [] } ∧
    execute_budget_query (fun _ => Except.ok []) "DROP TABLE vendor_payments" =
      { result := Except.error "ValueError: Only SELECT queries are allowed",
        connectionOpened := false, executedStatements := [] } :=
  C9_non_select_rejected_before_connect _ _ "DROP TABLE vendor_payments" (by decide)

/-- C6: `detect_graph_type` follows the stated priority order: fewer than
4 rows (including zero) gives `"none"`; otherwise a first-row column name
containing `fiscal_year` or `year` (case-insensitively) gives `"line"`;
otherwise SQL with both `LIMIT` and `ORDER BY` gives `"bar"`, SQL with
`GROUP BY` gives `"bar"`, and the default is `"bar"`. -/
theorem C6_detect_graph_type_priority (results : List Row) (query : String) :
    (results.length < 4 → detect_graph_type results query = "none") ∧
    (4 ≤ results.length → hasTimeCol (results.headD []) = true →
      detect_graph_type results query = "line") ∧
    (4 ≤ results.length → hasTimeCol (results.headD []) = false →
      pyIn "LIMIT" (pyUpper query) = true → pyIn "ORDER BY" (pyUpper query) = true →
      detect_graph_type results query = "bar") ∧
    (4 ≤ results.length → hasTimeCol (results.headD []) = false →
      pyIn "GROUP BY" (pyUpper query) = true →
      detect_graph_type results query = "bar") ∧
    (4 ≤ results.length → hasTimeCol (results.headD []) = false →
      detect_graph_type results query = "bar") := by
  have hcons : 4 ≤ results.length → ∃ r rest, results = r :: rest := by
    intro h
    cases results with
    | nil => simp at h
    | cons r rest => exact ⟨r, rest, rfl⟩
  have hbar : hasTimeCol (results.headD []) = false → 4 ≤ results.length →
      detect_graph_type results query = "bar" := by
    intro ht h
    obtain ⟨r, rest, rfl⟩ := hcons h
    simp only [List.length_cons] at h
    simp only [List.headD_cons] at ht
    simp [detect_graph_type, Nat.not_lt.mpr h, ht]
  refine ⟨?_, ?_, ?_, ?_, ?_⟩
  · intro h
    unfold detect_graph_type
    simp [h]
  · intro h ht
    obtain ⟨r, rest, rfl⟩ := hcons h
    simp only [List.length_cons] at h
    simp only [List.headD_cons] at ht
    simp [detect_graph_type, Nat.not_lt.mpr h, ht, h]
  · intro h ht _ _
    exact hbar ht h
  · intro h ht _
    exact hbar ht h
  · intro h ht
    exact hbar ht h

/-- The trim step `if len(m) > n: m = m[-(n):]` leaves at most `n`
messages, for any positive `n` and any starting list. -/
theorem trim_length_le (n : Nat) (hn : n ≠ 0) (m : List Message) :
    (if m.length > n then pyLastSlice n m else m).length ≤ n := by
  by_cases h : m.length > n
  · rw [if_pos h]
    unfold pyLastSlice
    rw [if_neg hn]
    simp only [List.length_drop]
    omega
  · rw [if_neg h]
    omega

/-- The trim step preserves the last message, for any positive `n`. -/
theorem trim_getLast? (n : Nat) (hn : n ≠ 0) (m : List Message) :
    (if m.length > n then pyLastSlice n m else m).getLast? = m.getLast? := by
  by_cases h : m.length > n
  · rw [if_pos h]
    unfold pyLastSlice
    rw [if_neg hn]
    have hne : m.drop (m.length - n) ≠ [] := by
      intro hnil
      have := congrArg List.length hnil
      simp only [List.length_drop, List.length_nil] at this
      omega
    conv_rhs => rw [← List.take_append_drop (m.length - n) m]
    rw [List.getLast?_append_of_ne_nil _ hne]
  · rw [if_neg h]

/-- Step bound for `add_exchange`: for a positive window size, one call
leaves at most `window_size * 2` messages whatever the starting list is. -/
theorem add_exchange_length_le (ws : Nat) (hws : 1 ≤ ws)
    (msgs : List Message) (u a : String) :
    (add_exchange ws msgs u a).length ≤ ws * 2 :=
  trim_length_le (ws * 2) (by omega)
    (msgs ++ [({ role := "user", content := u } : Message),
      ({ role := "assistant", content := truncate_content a 2000 } : Message)])

/-- C5: starting from a fresh session, any sequence of `add_exchange` calls
leaves at most `window_size * 2` messages (4 at the default window size 2),
and an assistant response longer than 2000 characters is stored as its
first 2000 characters followed by the truncation marker (it is the last
stored message of the call that appended it). -/
theorem C5_session_window_and_truncation (ws : Nat) (hws : 1 ≤ ws)
    (calls : List (String × String)) (msgs : List Message) (u a : String)
    (ha : 2000 < a.length) :
    (runExchanges ws calls).length ≤ ws * 2 ∧
    (add_exchange ws msgs u a).getLast? =
      some { role := "assistant",
             content := (⟨a.toList.take 2000⟩ : String) ++ "\n\n[... truncated " ++
               toString (a.length - 2000) ++ " characters for memory efficiency]" } := by
  constructor
  · have key : ∀ (cs : List (String × String)) (start : List Message),
        start.length ≤ ws * 2 →
        (cs.foldl (fun msgs c => add_exchange ws msgs c.1 c.2) start).length ≤ ws * 2 := by
      intro cs
      induction cs with
      | nil => intro start h; simpa using h
      | cons c cs ih =>
          intro start _
          exact ih _ (add_exchange_length_le ws hws start c.1 c.2)
    exact key calls [] (by simp)
  · have htr : truncate_content a 2000 =
        (⟨a.toList.take 2000⟩ : String) ++ "\n\n[... truncated " ++
          toString (a.length - 2000) ++ " characters for memory efficiency]" := by
      unfold truncate_content
      rw [if_neg (by omega)]
    have step := trim_getLast? (ws * 2) (by omega)
      (msgs ++ [({ role := "user", content := u } : Message),
        ({ role := "assistant", content := truncate_content a 2000 } : Message)])
    have hlast : (msgs ++ [({ role := "user", content := u } : Message),
        ({ role := "assistant", content := truncate_content a 2000 } : Message)]).getLast? =
        some ({ role := "assistant", content := truncate_content a 2000 } : Message) := by
      rw [List.getLast?_append_of_ne_nil _ (by simp)]
      rfl
    calc (add_exchange ws msgs u a).getLast?
        = some ({ role := "assistant", content := truncate_content a 2000 } : Message) :=
          step.trans hlast
      _ = _ := by rw [htr]

/-- Witness for C5: three exchanges at the default window size keep 4
messages, and a 2001-character response is truncated at 2000. -/
theorem C5_session_window_and_truncation_witness :
    (runExchanges 2 [("a", "b"), ("c", "d"), ("e", "f")]).length ≤ 4 ∧
    (add_exchange 2 [] "u" (String.mk (List.replicate 2001 'x'))).getLast? =
      some { role := "assistant",
             content := (⟨(String.mk (List.replicate 2001 'x')).toList.take 2000⟩ : String) ++
               "\n\n[... truncated " ++
               toString ((String.mk (List.replicate 2001 'x')).length - 2000) ++
               " characters for memory efficiency]" } :=
  C5_session_window_and_truncation 2 (by decide)
    [("a", "b"), ("c", "d"), ("e", "f")] [] "u" (String.mk (List.replicate 2001 'x'))
    (by simp only [String.length_mk, List.length_replicate]; omega)

/-- Witness for C6 at the spec's concrete inputs. -/
theorem C6_detect_graph_type_priority_witness :
    detect_graph_type
      [[("fiscal_year", Value.s "2022")], [("fiscal_year", Value.s "2023")],
       [("fiscal_year", Value.s "2024")], [("fiscal_year", Value.s "2025")],
       [("fiscal_year", Value.s "2026")]] "SELECT fiscal_year FROM budget" = "line" ∧
    detect_graph_type
      [[("vendor", Value.s "a")], [("vendor", Value.s "b")],
       [("vendor", Value.s "c")], [("vendor", Value.s "d")]]
      "SELECT vendor FROM vendor_payments ORDER BY total DESC LIMIT 5" = "bar" ∧
    detect_graph_type
      [[("vendor", Value.s "a")], [("vendor", Value.s "b")], [("vendor", Value.s "c")]]
      "SELECT vendor FROM vendor_payments" = "none" :=
  ⟨(C6_detect_graph_type_priority _ _).2.1 (by decide) (by decide),
   (C6_detect_graph_type_priority _ _).2.2.1 (by decide) (by decide) (by decide) (by decide),
   (C6_detect_graph_type_priority _ _).1 (by decide)⟩

/-- Dropping a replicated block whose element satisfies the predicate. -/
theorem dropWhile_replicate_append {α : Type} (p : α → Bool) (n : Nat) (a : α)
    (l : List α) (h : p a = true) :
    List.dropWhile p (List.replicate n a ++ l) = List.dropWhile p l := by
  induction n with
  | zero => simp
  | succ n ih => simp [List.replicate_succ, List.dropWhile, h, ih]

/-- Filtering a replicated block whose element fails the predicate. -/
theorem filter_replicate_neg {α : Type} (p : α → Bool) (n : Nat) (a : α)
    (h : p a = false) : (List.replicate n a).filter p = [] := by
  induction n with
  | zero => simp
  | succ n ih => simp [List.replicate_succ, List.filter, h, ih]

/-- All elements of a replicated block satisfy a predicate its element
satisfies. -/
theorem all_replicate {α : Type} (p : α → Bool) (n : Nat) (a : α)
    (h : p a = true) : (List.replicate n a).all p = true := by
  induction n with
  | zero => simp
  | succ n ih => simp [List.replicate_succ, h, ih]

/-- C2 counterexample: the vendor-database connection does not commit three
times (once per vendor CSV file); on a run with one qualifying row per
file it commits exactly once. -/
theorem C2_vendor_not_three_commits :
    vendorCommitCount (etlTrace 1 1 1 1 1) = 1 ∧
    vendorCommitCount (etlTrace 1 1 1 1 1) ≠ 3 := by
  constructor <;> decide

/-- C2 (amended): in every run of the Database Builder the vendor-database
connection commits exactly once, after all three vendor files have been
inserted (no vendor-file insert occurs at or after the vendor commit), and
the budget-database connection commits exactly once, after both budget
files have been inserted (no budget-file insert occurs at or after the
budget commit; only the summary count and sample reads follow it). -/
theorem C2_etl_commit_discipline (vMain v2024 v2025 bMain b2024 : Nat) :
    vendorCommitCount (etlTrace vMain v2024 v2025 bMain b2024) = 1 ∧
    budgetCommitCount (etlTrace vMain v2024 v2025 bMain b2024) = 1 ∧
    ((etlTrace vMain v2024 v2025 bMain b2024).dropWhile
        (· ≠ EtlEvent.commitVendor)).all (fun e => !(isInsertVendor e)) = true ∧
    ((etlTrace vMain v2024 v2025 bMain b2024).dropWhile
        (· ≠ EtlEvent.commitBudget)).all (fun e => !(isInsertBudget e)) = true := by
  refine ⟨?_, ?_, ?_, ?_⟩
  · unfold vendorCommitCount etlTrace
    simp only [List.append_assoc, List.filter_append,
      filter_replicate_neg (· = EtlEvent.commitVendor) vMain (EtlEvent.insertVendor 0) (by decide),
      filter_replicate_neg (· = EtlEvent.commitVendor) v2024 (EtlEvent.insertVendor 1) (by decide),
      filter_replicate_neg (· = EtlEvent.commitVendor) v2025 (EtlEvent.insertVendor 2) (by decide),
      filter_replicate_neg (· = EtlEvent.commitVendor) bMain (EtlEvent.insertBudget 0) (by decide),
      filter_replicate_neg (· = EtlEvent.commitVendor) b2024 (EtlEvent.insertBudget 1) (by decide)]
    decide
  · unfold budgetCommitCount etlTrace
    simp only [List.append_assoc, List.filter_append,
      filter_replicate_neg (· = EtlEvent.commitBudget) vMain (EtlEvent.insertVendor 0) (by decide),
      filter_replicate_neg (· = EtlEvent.commitBudget) v2024 (EtlEvent.insertVendor 1) (by decide),
      filter_replicate_neg (· = EtlEvent.commitBudget) v2025 (EtlEvent.insertVendor 2) (by decide),
      filter_replicate_neg (· = EtlEvent.commitBudget) bMain (EtlEvent.insertBudget 0) (by decide),
      filter_replicate_neg (· = EtlEvent.commitBudget) b2024 (EtlEvent.insertBudget 1) (by decide)]
    decide
  · unfold etlTrace
    simp only [List.append_assoc]
    rw [dropWhile_replicate_append (· ≠ EtlEvent.commitVendor) vMain
        (EtlEvent.insertVendor 0) _ (by decide),
      dropWhile_replicate_append (· ≠ EtlEvent.commitVendor) v2024
        (EtlEvent.insertVendor 1) _ (by decide),
      dropWhile_replicate_append (· ≠ EtlEvent.commitVendor) v2025
        (EtlEvent.insertVendor 2) _ (by decide),
      List.singleton_append, List.dropWhile_cons]
    rw [if_neg (by decide)]
    simp only [List.all_cons, List.all_append,
      all_replicate (fun e => !(isInsertVendor e)) bMain (EtlEvent.insertBudget 0) (by decide),
      all_replicate (fun e => !(isInsertVendor e)) b2024 (EtlEvent.insertBudget 1) (by decide)]
    decide
  · unfold etlTrace
    simp only [List.append_assoc]
    rw [dropWhile_replicate_append (· ≠ EtlEvent.commitBudget) vMain
        (EtlEvent.insertVendor 0) _ (by decide),
      dropWhile_replicate_append (· ≠ EtlEvent.commitBudget) v2024
        (EtlEvent.insertVendor 1) _ (by decide),
      dropWhile_replicate_append (· ≠ EtlEvent.commitBudget) v2025
        (EtlEvent.insertVendor 2) _ (by decide),
      List.singleton_append, List.dropWhile_cons]
    rw [if_pos (by decide)]
    rw [dropWhile_replicate_append (· ≠ EtlEvent.commitBudget) bMain
        (EtlEvent.insertBudget 0) _ (by decide),
      dropWhile_replicate_append (· ≠ EtlEvent.commitBudget) b2024
        (EtlEvent.insertBudget 1) _ (by decide)]
    rw [List.singleton_append, List.dropWhile_cons, if_neg (by decide)]
    decide

/-- The `[EMPTY_RESULTS]` warning emitted for a non-empty SQL with zero
rows. -/
theorem validate_empty_results (s : String) (hs : s ≠ "") :
    validate_query_results [] s "" =
      ["[EMPTY_RESULTS] Query returned 0 rows — SQL may need correction"] := by
  unfold validate_query_results
  rw [if_neg (by simp), if_pos ⟨hs, rfl⟩]

/-- `query_validate_route` on exactly the empty-results warning decides by
the retry counter alone. -/
theorem query_validate_route_empty (c : Nat) :
    query_validate_route
      ["[EMPTY_RESULTS] Query returned 0 rows — SQL may need correction"] c =
      (if c < 2 then "retry_query" else "continue") := by
  unfold query_validate_route
  rw [if_neg (by decide)]
  have her : List.filter (fun x => pyIn "[EMPTY_RESULTS]" x)
      ["[EMPTY_RESULTS] Query returned 0 rows — SQL may need correction"] =
      ["[EMPTY_RESULTS] Query returned 0 rows — SQL may need correction"] := by decide
  rw [her]
  unfold MAX_SQL_RETRIES
  by_cases hc : c < 2
  · rw [if_pos ⟨by decide, hc⟩, if_pos hc]
  · rw [if_neg (by simp [hc]), if_neg hc]

/-- `should_retry` on exactly one grounding warning decides by the retry
counter alone. -/
theorem should_retry_grounding (w : String) (c : Nat)
    (hw : pyIn "[DATA_GROUNDING]" w = true ∨ pyIn "[CONTEXT_GROUNDING]" w = true) :
    should_retry [w] c = (if c < 2 then "retry" else "done") := by
  unfold should_retry
  have hfil : List.filter
      (fun x => pyIn "[DATA_GROUNDING]" x || pyIn "[CONTEXT_GROUNDING]" x) [w] = [w] := by
    have h : (pyIn "[DATA_GROUNDING]" w || pyIn "[CONTEXT_GROUNDING]" w) = true := by
      rcases hw with h | h <;> simp [h]
    simp [List.filter, h]
  rw [hfil]
  unfold MAX_RETRIES
  by_cases hc : c < 2
  · rw [if_pos ⟨by simp, hc⟩, if_pos hc]
  · rw [if_neg (by simp [hc]), if_neg hc]

/-- C4: both self-correction loops are capped at 2.
`query_validate_route` yields the retry verdict only when an
`[EMPTY_RESULTS]` warning is present and the SQL-retry counter is below 2,
and never when a `[QUERY_FAILED]` warning is present; `should_retry` yields
the retry verdict only when a `[DATA_GROUNDING]` or `[CONTEXT_GROUNDING]`
warning is present and the response-retry counter is below 2; and under an
environment that reproduces the same empty-result / grounding-violation
condition forever, each loop performs at most 2 retries, for any fuel. -/
theorem C4_retry_loops_bounded :
    (∀ (w : List String) (c : Nat), query_validate_route w c = "retry_query" →
      (∃ x ∈ w, pyIn "[EMPTY_RESULTS]" x = true) ∧ c < 2 ∧
        ∀ x ∈ w, pyIn "[QUERY_FAILED]" x = false) ∧
    (∀ (w : List String) (c : Nat), should_retry w c = "retry" →
      (∃ x ∈ w, pyIn "[DATA_GROUNDING]" x = true ∨
        pyIn "[CONTEXT_GROUNDING]" x = true) ∧ c < 2) ∧
    (∀ (s : String) (fuel : Nat), s ≠ "" → simSqlLoop s fuel false 0 ≤ 2) ∧
    (∀ (w : String) (fuel : Nat),
      pyIn "[DATA_GROUNDING]" w = true ∨ pyIn "[CONTEXT_GROUNDING]" w = true →
      simRespLoop w fuel [] 0 ≤ 2) := by
  refine ⟨?_, ?_, ?_, ?_⟩
  · intro w c h
    unfold query_validate_route at h
    by_cases h1 : w.filter (fun x => pyIn "[QUERY_FAILED]" x) = []
    · rw [if_neg (by simp [h1])] at h
      by_cases h2 : w.filter (fun x => pyIn "[EMPTY_RESULTS]" x) ≠ [] ∧
          c < MAX_SQL_RETRIES
      · obtain ⟨h2a, h2b⟩ := h2
        obtain ⟨x, hx⟩ := List.exists_mem_of_ne_nil _ h2a
        obtain ⟨hxw, hxp⟩ := List.mem_filter.mp hx
        refine ⟨⟨x, hxw, hxp⟩, h2b, ?_⟩
        intro y hy
        have := (List.filter_eq_nil_iff.mp h1) y hy
        simpa using this
      · rw [if_neg h2] at h
        exact absurd h (by decide)
    · rw [if_pos (by simp [h1])] at h
      exact absurd h (by decide)
  · intro w c h
    unfold should_retry at h
    by_cases h2 : w.filter
        (fun x => pyIn "[DATA_GROUNDING]" x || pyIn "[CONTEXT_GROUNDING]" x) ≠ [] ∧
        c < MAX_RETRIES
    · obtain ⟨h2a, h2b⟩ := h2
      obtain ⟨x, hx⟩ := List.exists_mem_of_ne_nil _ h2a
      obtain ⟨hxw, hxp⟩ := List.mem_filter.mp hx
      refine ⟨⟨x, hxw, ?_⟩, h2b⟩
      simpa using hxp
    · rw [if_neg h2] at h
      exact absurd h (by decide)
  · intro s fuel hs
    have hstepT : ∀ (f c : Nat), simSqlLoop s (f + 1) true c =
        (if query_validate_route (validate_query_results [] s "") (c + 1) = "retry_query"
         then 1 + simSqlLoop s f true (c + 1) else 0) := fun _ _ => rfl
    have hstepF : ∀ (f c : Nat), simSqlLoop s (f + 1) false c =
        (if query_validate_route (validate_query_results [] s "") c = "retry_query"
         then 1 + simSqlLoop s f true c else 0) := fun _ _ => rfl
    have hge1 : ∀ (f c : Nat), 1 ≤ c → simSqlLoop s f true c = 0 := by
      intro f c hc
      cases f with
      | zero => rfl
      | succ f =>
          rw [hstepT, validate_empty_results s hs, query_validate_route_empty,
            if_neg (show ¬ (c + 1 < 2) by omega),
            if_neg (show ¬ ("continue" = "retry_query") by decide)]
    have htrue0 : ∀ (f : Nat), simSqlLoop s f true 0 ≤ 1 := by
      intro f
      cases f with
      | zero => exact Nat.zero_le 1
      | succ f =>
          rw [hstepT, validate_empty_results s hs, query_validate_route_empty,
            if_pos (show 0 + 1 < 2 by omega), if_pos rfl]
          have h0 := hge1 f (0 + 1) (by omega)
          omega
    cases fuel with
    | zero => exact Nat.zero_le 2
    | succ f =>
        rw [hstepF, validate_empty_results s hs, query_validate_route_empty,
          if_pos (show 0 < 2 by omega), if_pos rfl]
        have h1 := htrue0 f
        omega
  · intro w fuel hw
    have hstep : ∀ (f c : Nat), simRespLoop w (f + 1) [w] c =
        (if should_retry [w] (c + 1) = "retry"
         then 1 + simRespLoop w f [w] (c + 1) else 0) := fun _ _ => rfl
    have hstep0 : ∀ (f c : Nat), simRespLoop w (f + 1) [] c =
        (if should_retry [w] c = "retry"
         then 1 + simRespLoop w f [w] c else 0) := fun _ _ => rfl
    have hge1 : ∀ (f c : Nat), 1 ≤ c → simRespLoop w f [w] c = 0 := by
      intro f c hc
      cases f with
      | zero => rfl
      | succ f =>
          rw [hstep, should_retry_grounding w _ hw,
            if_neg (show ¬ (c + 1 < 2) by omega),
            if_neg (show ¬ ("done" = "retry") by decide)]
    have hw0 : ∀ (f : Nat), simRespLoop w f [w] 0 ≤ 1 := by
      intro f
      cases f with
      | zero => exact Nat.zero_le 1
      | succ f =>
          rw [hstep, should_retry_grounding w _ hw,
            if_pos (show 0 + 1 < 2 by omega), if_pos rfl]
          have h0 := hge1 f (0 + 1) (by omega)
          omega
    cases fuel with
    | zero => exact Nat.zero_le 2
    | succ f =>
        rw [hstep0, should_retry_grounding w _ hw,
          if_pos (show 0 < 2 by omega), if_pos rfl]
        have h1 := hw0 f
        omega

/-- Witness for C4 at concrete warnings, counters and fuels. -/
theorem C4_retry_loops_bounded_witness :
    ((∃ x ∈ ["[EMPTY_RESULTS] Query returned 0 rows — SQL may need correction"],
        pyIn "[EMPTY_RESULTS]" x = true) ∧ (0 : Nat) < 2 ∧
      ∀ x ∈ ["[EMPTY_RESULTS] Query returned 0 rows — SQL may need correction"],
        pyIn "[QUERY_FAILED]" x = false) ∧
    ((∃ x ∈ ["[DATA_GROUNDING] WARNING: made-up total"],
        pyIn "[DATA_GROUNDING]" x = true ∨ pyIn "[CONTEXT_GROUNDING]" x = true) ∧
      (0 : Nat) < 2) ∧
    simSqlLoop "SELECT 1" 5 false 0 ≤ 2 ∧
    simRespLoop "[DATA_GROUNDING] WARNING: made-up total" 5 [] 0 ≤ 2 :=
  ⟨C4_retry_loops_bounded.1 _ 0 (by decide),
   C4_retry_loops_bounded.2.1 _ 0 (by decide),
   C4_retry_loops_bounded.2.2.1 "SELECT 1" 5 (by decide),
   C4_retry_loops_bounded.2.2.2 _ 5 (Or.inl (by decide))⟩

set_option maxRecDepth 8192 in
/-- C1 (code bug): the `query_sql` dispatch path never applies the blocking
validator.  `sql_validator` itself judges a clean statement safe with an
empty warning list, and judges a multi-statement SELECT unsafe — yet
`handle_query_sql` hands that unsafe statement to the database layer
anyway and returns a non-error envelope: execution is not prevented. -/
theorem C1_blocking_validator_not_applied_at_dispatch :
    sql_validator
      "SELECT * FROM vendor_payments WHERE fiscal_year = '2024' LIMIT 10" =
      (true, []) ∧
    (sql_validator "SELECT * FROM vendor_payments; DROP TABLE vendor_payments").1 =
      false ∧
    (handle_query_sql (fun _ => Except.ok []) (fun _ => Except.ok [])
        "show all payments"
        "SELECT * FROM vendor_payments; DROP TABLE vendor_payments").executedStatements =
      ["SELECT * FROM vendor_payments; DROP TABLE vendor_payments"] ∧
    (handle_query_sql (fun _ => Except.ok []) (fun _ => Except.ok [])
        "show all payments"
        "SELECT * FROM vendor_payments; DROP TABLE vendor_payments").isError = false :=
  ⟨by decide, by decide, by decide, by decide⟩

/-- A substring of `a` is a substring of `a ++ b`. -/
theorem pyIn_append_right (n a b : String) (h : pyIn n a = true) :
    pyIn n (a ++ b) = true := by
  unfold pyIn at h ⊢
  rw [decide_eq_true_iff] at h ⊢
  have : a.toList <+: (a ++ b).toList := by
    refine ⟨b.toList, ?_⟩
    show a.data ++ b.data = (a ++ b).data
    exact (String.data_append a b).symm
  exact h.trans (List.IsPrefix.isInfix this)

/-- C3: `validate_query_results` is prioritized and short-circuiting: a
non-empty error string yields exactly one `[QUERY_FAILED]` warning; a
non-empty SQL with an empty result list yields exactly one
`[EMPTY_RESULTS]` warning; otherwise a `fiscal_year` value among the first
10 rows whose integer value is outside {2024, 2025, 2026} yields an
unexpected-fiscal-year warning, and more than 10,000 rows yield one large
result-set warning (appended last). -/
theorem C3_validate_query_results_priority :
    (∀ (results : List Row) (sql e : String), e ≠ "" →
      validate_query_results results sql e = ["[QUERY_FAILED] " ++ e]) ∧
    (∀ (sql : String), sql ≠ "" →
      validate_query_results [] sql "" =
        ["[EMPTY_RESULTS] Query returned 0 rows — SQL may need correction"]) ∧
    (∀ (results : List Row) (sql : String) (row : Row) (n : Int),
      results ≠ [] → row ∈ results.take 10 →
      (rowGet row "fiscal_year" = some (Value.i n) ∨
        ∃ y, rowGet row "fiscal_year" = some (Value.s y) ∧ pyInt y = some n) →
      n ≠ 2024 → n ≠ 2025 → n ≠ 2026 →
      ∃ warning ∈ validate_query_results results sql "",
        pyIn "Unexpected fiscal year" warning = true) ∧
    (∀ (results : List Row) (sql : String), results.length > 10000 →
      ∃ pre, validate_query_results results sql "" =
        pre ++ ["[RESULT_VALIDATOR] WARNING: Large result set returned (" ++
          toString results.length ++ " rows) - may impact performance"]) := by
  refine ⟨?_, ?_, ?_, ?_⟩
  · intro results sql e he
    unfold validate_query_results
    rw [if_pos he]
  · intro sql hs
    exact validate_empty_results sql hs
  · intro results sql row n hne hrow hget h24 h25 h26
    unfold validate_query_results
    rw [if_neg (by simp), if_neg (by
      rintro ⟨-, h0⟩
      exact hne (List.length_eq_zero.mp h0))]
    -- the warning produced by the fiscal-year check of this row
    obtain ⟨i, hi⟩ : ∃ i : Nat, (results.take 10)[i]? = some row := by
      rw [List.mem_iff_getElem?] at hrow
      exact hrow
    have henum : (i, row) ∈ (results.take 10).enum :=
      List.mem_enum_iff_getElem?.mpr hi
    have hblock : moneyWarnings i row ++ fiscalWarnings i row ∈
        ((results.take 10).enum.map
          (fun p => moneyWarnings p.1 p.2 ++ fiscalWarnings p.1 p.2)) :=
      List.mem_map_of_mem _ henum
    have hfw : ∃ warning ∈ fiscalWarnings i row,
        pyIn "Unexpected fiscal year" warning = true := by
      rcases hget with hint | ⟨y, hstr, hparse⟩
      · refine ⟨"[RESULT_VALIDATOR] WARNING: Unexpected fiscal year in row " ++
          toString (i + 1) ++ ": " ++ toString n, ?_, ?_⟩
        · simp only [fiscalWarnings, hint]
          rw [if_neg (by tauto)]
          exact List.mem_singleton.mpr rfl
        · exact pyIn_append_right _ _ _ (pyIn_append_right _ _ _
            (pyIn_append_right _ _ _ (by decide)))
      · refine ⟨"[RESULT_VALIDATOR] WARNING: Unexpected fiscal year in row " ++
          toString (i + 1) ++ ": " ++ y, ?_, ?_⟩
        · simp only [fiscalWarnings, hstr, hparse]
          rw [if_neg (by tauto)]
          exact List.mem_singleton.mpr rfl
        · exact pyIn_append_right _ _ _ (pyIn_append_right _ _ _
            (pyIn_append_right _ _ _ (by decide)))
    obtain ⟨warning, hwmem, hwp⟩ := hfw
    refine ⟨warning, ?_, hwp⟩
    apply List.mem_append_left
    rw [List.mem_flatten]
    exact ⟨moneyWarnings i row ++ fiscalWarnings i row, hblock,
      List.mem_append_right _ hwmem⟩
  · intro results sql hlarge
    unfold validate_query_results
    rw [if_neg (by simp), if_neg (by
      rintro ⟨-, h0⟩
      omega)]
    refine ⟨((results.take 10).enum.map
      (fun p => moneyWarnings p.1 p.2 ++ fiscalWarnings p.1 p.2)).flatten, ?_⟩
    rw [if_pos hlarge]

/-- Witness for C3 at the spec's concrete inputs. -/
theorem C3_validate_query_results_priority_witness :
    validate_query_results [] "" "execution failed" =
      ["[QUERY_FAILED] " ++ "execution failed"] ∧
    validate_query_results [] "SELECT * FROM vendor_payments" "" =
      ["[EMPTY_RESULTS] Query returned 0 rows — SQL may need correction"] ∧
    (∃ warning ∈ validate_query_results
        [[("fiscal_year", Value.s "1999"), ("payment", Value.s "$1,234.56")]]
        "SELECT * FROM vendor_payments" "",
      pyIn "Unexpected fiscal year" warning = true) ∧
    (∃ pre, validate_query_results (List.replicate 10001 ([] : Row))
        "SELECT * FROM vendor_payments" "" =
      pre ++ ["[RESULT_VALIDATOR] WARNING: Large result set returned (" ++
        toString (List.replicate 10001 ([] : Row)).length ++
        " rows) - may impact performance"]) :=
  ⟨C3_validate_query_results_priority.1 [] "" "execution failed" (by decide),
   C3_validate_query_results_priority.2.1 "SELECT * FROM vendor_payments" (by decide),
   C3_validate_query_results_priority.2.2.1
     [[("fiscal_year", Value.s "1999"), ("payment", Value.s "$1,234.56")]]
     "SELECT * FROM vendor_payments"
     [("fiscal_year", Value.s "1999"), ("payment", Value.s "$1,234.56")] 1999
     (by decide) (by decide)
     (Or.inr ⟨"1999", by decide, by decide⟩) (by decide) (by decide) (by decide),
   C3_validate_query_results_priority.2.2.2 (List.replicate 10001 ([] : Row))
     "SELECT * FROM vendor_payments" (by rw [List.length_replicate]; decide)⟩

/-- In a list with duplicate-free keys, an id determines its entry. -/
theorem entry_eq_of_nodup_keys {l : List (String × Entry)}
    (hnd : (l.map Prod.fst).Nodup) {id : String} {b c : Entry}
    (hb : (id, b) ∈ l) (hc : (id, c) ∈ l) : b = c := by
  induction l with
  | nil => cases hb
  | cons p l ih =>
      simp only [List.map_cons, List.nodup_cons] at hnd
      rcases List.mem_cons.mp hb with hb1 | hb1 <;>
        rcases List.mem_cons.mp hc with hc1 | hc1
      · exact congrArg Prod.snd (hb1.trans hc1.symm)
      · exfalso
        apply hnd.1
        have hmem : id ∈ List.map Prod.fst l := List.mem_map_of_mem Prod.fst hc1
        have hid : p.1 = id := (congrArg Prod.fst hb1).symm
        rwa [hid]
      · exfalso
        apply hnd.1
        have hmem : id ∈ List.map Prod.fst l := List.mem_map_of_mem Prod.fst hb1
        have hid : p.1 = id := (congrArg Prod.fst hc1).symm
        rwa [hid]
      · exact ih hnd.2 hb1 hc1

/-- Inserting pairwise-fresh keys into a dict is plain concatenation. -/
theorem foldl_dictInsert_fresh : ∀ (f acc : List (String × Entry)),
    (∀ p ∈ f, p.1 ∉ acc.map Prod.fst) → (f.map Prod.fst).Nodup →
    f.foldl (fun m p => dictInsert m p.1 p.2) acc = acc ++ f := by
  intro f
  induction f with
  | nil => intro acc _ _; simp
  | cons p f ih =>
      intro acc hfresh hnd
      simp only [List.map_cons, List.nodup_cons] at hnd
      have hany : acc.any (fun q => q.1 = p.1) = false := by
        rw [Bool.eq_false_iff]
        intro hany
        obtain ⟨q, hq, hq1⟩ := List.any_eq_true.mp hany
        exact hfresh p (List.mem_cons_self p f)
          (by rw [← of_decide_eq_true hq1]; exact List.mem_map_of_mem Prod.fst hq)
      have hstep : dictInsert acc p.1 p.2 = acc ++ [p] := by
        unfold dictInsert
        rw [hany]
        simp
      rw [List.foldl_cons, hstep, ih (acc ++ [p]) ?_ hnd.2, List.append_assoc]
      · rfl
      · intro q hq
        simp only [List.map_append, List.map_cons, List.map_nil, List.mem_append,
          List.mem_singleton]
        rintro (hmem | hkey)
        · exact hfresh q (List.mem_cons_of_mem p hq) hmem
        · exact hnd.1 (hkey ▸ List.mem_map_of_mem Prod.fst hq)

/-- The unfiltered skip-fold: every accumulated entry survives, new entries
come from the unfiltered pass with ids fresh for the accumulator, and
duplicate-free keys are preserved. -/
theorem skipFold_spec : ∀ (u acc : List (String × Entry)),
    (∀ p ∈ acc, p ∈ u.foldl
      (fun m p => if m.any (fun q => q.1 = p.1) then m else m ++ [p]) acc) ∧
    (∀ p ∈ u.foldl
        (fun m p => if m.any (fun q => q.1 = p.1) then m else m ++ [p]) acc,
      p ∈ acc ∨ (p ∈ u ∧ p.1 ∉ acc.map Prod.fst)) ∧
    ((acc.map Prod.fst).Nodup →
      ((u.foldl (fun m p => if m.any (fun q => q.1 = p.1) then m else m ++ [p])
        acc).map Prod.fst).Nodup) := by
  intro u
  induction u with
  | nil =>
      intro acc
      exact ⟨fun p hp => hp, fun p hp => Or.inl hp, fun h => h⟩
  | cons q u ih =>
      intro acc
      by_cases hq : acc.any (fun r => r.1 = q.1) = true
      · obtain ⟨r, hr, hr1⟩ := List.any_eq_true.mp hq
        have hkey : q.1 ∈ acc.map Prod.fst := by
          rw [← of_decide_eq_true hr1]
          exact List.mem_map_of_mem Prod.fst hr
        simp only [List.foldl_cons, if_pos hq]
        refine ⟨(ih acc).1, fun p hp => ?_, (ih acc).2.2⟩
        rcases (ih acc).2.1 p hp with h | ⟨hu, hfresh⟩
        · exact Or.inl h
        · exact Or.inr ⟨List.mem_cons_of_mem q hu, hfresh⟩
      · have hq' : acc.any (fun r => r.1 = q.1) = false := by
          rwa [Bool.not_eq_true] at hq
        have hkey : q.1 ∉ acc.map Prod.fst := by
          intro hmem
          obtain ⟨r, hr, hr1⟩ := List.mem_map.mp hmem
          apply hq
          exact List.any_eq_true.mpr ⟨r, hr, decide_eq_true hr1⟩
        simp only [List.foldl_cons, if_neg hq]
        refine ⟨?_, ?_, ?_⟩
        · intro p hp
          exact (ih (acc ++ [q])).1 p (List.mem_append_left _ hp)
        · intro p hp
          rcases (ih (acc ++ [q])).2.1 p hp with h | ⟨hu, hfresh⟩
          · rcases List.mem_append.mp h with h1 | h1
            · exact Or.inl h1
            · refine Or.inr ⟨?_, ?_⟩
              · rw [List.mem_singleton.mp h1]
                exact List.mem_cons_self q u
              · rw [List.mem_singleton.mp h1]
                exact hkey
          · refine Or.inr ⟨List.mem_cons_of_mem q hu, fun hmem => ?_⟩
            exact hfresh (by simp only [List.map_append]; exact List.mem_append_left _ hmem)
        · intro hnd
          apply (ih (acc ++ [q])).2.2
          simp only [List.map_append, List.map_cons, List.map_nil]
          rw [List.nodup_append]
          exact ⟨hnd, List.nodup_singleton _, by
            intro x hx hx1
            rw [List.mem_singleton.mp hx1] at hx
            exact hkey hx⟩

/-- `rerank` always returns a descending-by-score list of at most `top_k`
chunks. -/
theorem rerank_sorted_and_bounded (scorer : String → Rat)
    (chunks : List Entry) (top_k : Nat) :
    List.Sorted scoreGe (rerank scorer chunks top_k) ∧
    (rerank scorer chunks top_k).length ≤ top_k := by
  haveI : IsTotal Scored scoreGe :=
    ⟨fun a b => le_total b.rerank_score a.rerank_score⟩
  haveI : IsTrans Scored scoreGe :=
    ⟨fun _ _ _ hab hbc => le_trans hbc hab⟩
  unfold rerank
  split
  · exact ⟨List.sorted_nil, Nat.zero_le _⟩
  · constructor
    · exact List.Pairwise.sublist (List.take_sublist _ _)
        (List.sorted_insertionSort scoreGe _)
    · exact List.length_take_le _ _

/-- C8: the retriever's merge keeps the filtered pass's entry for every id
present in both passes (the filtered distance wins and is that id's only
entry), adds unfiltered entries only for ids not already present; an
empty merge returns no chunks without invoking the reranker; otherwise the
reranker runs and the returned chunks are sorted descending by rerank
score with at most `top_k` of them. -/
theorem C8_retrieve_merge_and_rerank :
    (∀ (f u : List (String × Entry)), (f.map Prod.fst).Nodup →
      (∀ p ∈ f, p ∈ mergeDict (some f) u) ∧
      (∀ (id : String) (e x : Entry),
        (id, e) ∈ f → (id, x) ∈ mergeDict (some f) u → x = e) ∧
      (∀ p ∈ mergeDict (some f) u, p ∈ f ∨ (p ∈ u ∧ p.1 ∉ f.map Prod.fst))) ∧
    (∀ (scorer : String → Rat) (f : Option (List (String × Entry)))
        (u : List (String × Entry)) (top_k : Nat),
      (merge_results f u = [] → retrieve scorer f u top_k = ([], false)) ∧
      (merge_results f u ≠ [] →
        (retrieve scorer f u top_k).2 = true ∧
        List.Sorted scoreGe (retrieve scorer f u top_k).1 ∧
        (retrieve scorer f u top_k).1.length ≤ top_k)) := by
  constructor
  · intro f u hnd
    have hbase : f.foldl (fun m p => dictInsert m p.1 p.2) [] = f := by
      rw [foldl_dictInsert_fresh f [] (by simp) hnd]
      rfl
    have hdict : mergeDict (some f) u =
        u.foldl (fun m p => if m.any (fun q => q.1 = p.1) then m else m ++ [p]) f := by
      unfold mergeDict
      rw [show (some f).getD [] = f from rfl, hbase]
    refine ⟨?_, ?_, ?_⟩
    · intro p hp
      rw [hdict]
      exact (skipFold_spec u f).1 p hp
    · intro id e x he hx
      have hndm : ((mergeDict (some f) u).map Prod.fst).Nodup := by
        rw [hdict]
        exact (skipFold_spec u f).2.2 hnd
      have hem : (id, e) ∈ mergeDict (some f) u := by
        rw [hdict]
        exact (skipFold_spec u f).1 _ he
      exact entry_eq_of_nodup_keys hndm hx hem
    · intro p hp
      rw [hdict] at hp
      exact (skipFold_spec u f).2.1 p hp
  · intro scorer f u top_k
    constructor
    · intro h
      unfold retrieve
      rw [if_pos h]
    · intro h
      unfold retrieve
      rw [if_neg h]
      exact ⟨rfl, (rerank_sorted_and_bounded scorer _ top_k).1,
        (rerank_sorted_and_bounded scorer _ top_k).2⟩

/-- Witness for C8 at the spec's concrete two-hit example. -/
theorem C8_retrieve_merge_and_rerank_witness :
    (("1", ({ text := "chunk one", meta := [], dist := 5 } : Entry)) ∈
      mergeDict (some [("1", { text := "chunk one", meta := [], dist := 5 })])
        [("1", { text := "chunk one", meta := [], dist := 7 }),
         ("2", { text := "chunk two", meta := [], dist := 3 })]) ∧
    (∀ x, ("1", x) ∈
        mergeDict (some [("1", ({ text := "chunk one", meta := [], dist := 5 } : Entry))])
          [("1", { text := "chunk one", meta := [], dist := 7 }),
           ("2", { text := "chunk two", meta := [], dist := 3 })] →
      x = { text := "chunk one", meta := [], dist := 5 }) ∧
    ((retrieve (fun _ => 0)
        (some [("1", ({ text := "chunk one", meta := [], dist := 5 } : Entry))])
        [("1", { text := "chunk one", meta := [], dist := 7 }),
         ("2", { text := "chunk two", meta := [], dist := 3 })] 5).2 = true ∧
      (retrieve (fun _ => 0)
        (some [("1", ({ text := "chunk one", meta := [], dist := 5 } : Entry))])
        [("1", { text := "chunk one", meta := [], dist := 7 }),
         ("2", { text := "chunk two", meta := [], dist := 3 })] 5).1.length ≤ 5) :=
  ⟨((C8_retrieve_merge_and_rerank.1 _ _ (by decide)).1 _ (by decide)),
   fun x hx => (C8_retrieve_merge_and_rerank.1 _ _ (by decide)).2.1 "1" _ x
     (by decide) hx,
   ⟨((C8_retrieve_merge_and_rerank.2 (fun _ => 0) _ _ 5).2 (by decide)).1,
    ((C8_retrieve_merge_and_rerank.2 (fun _ => 0) _ _ 5).2 (by decide)).2.2⟩⟩

/-- Core occurrence extraction: if `k ++ ' '::b` equals `T ++ [' ']`, then
`k` occurs at the start of `T` and its follower inside `T` is a space or
the end of `T`. -/
theorem occ_of_space_delimited (k T b : List Char)
    (h : k ++ ' ' :: b = T ++ [' ']) :
    k <+: T ∧ ((T.drop k.length).head? = some ' ' ∨ T.drop k.length = []) := by
  have hlen : k.length + (b.length + 1) = T.length + 1 := by
    have := congrArg List.length h
    simpa [Nat.add_comm, Nat.add_assoc, Nat.add_left_comm] using this
  have hkT : k.length ≤ T.length := by omega
  have htake : T.take k.length = k := by
    have h1 : (k ++ ' ' :: b).take k.length = k := List.take_left k (' ' :: b)
    rw [h] at h1
    rw [List.take_append_eq_append_take, Nat.sub_eq_zero_of_le hkT,
      List.take_zero, List.append_nil] at h1
    exact h1
  have hdrop : T.drop k.length ++ [' '] = ' ' :: b := by
    have h1 : (k ++ ' ' :: b).drop k.length = ' ' :: b := List.drop_left k (' ' :: b)
    rw [h] at h1
    rw [List.drop_append_eq_append_drop, Nat.sub_eq_zero_of_le hkT,
      List.drop_zero] at h1
    exact h1
  refine ⟨htake ▸ List.take_prefix k.length T, ?_⟩
  cases hT : T.drop k.length with
  | nil => exact Or.inr rfl
  | cons c cs =>
      left
      rw [hT] at hdrop
      simp only [List.cons_append] at hdrop
      rw [List.head?_cons, (List.cons.injEq _ _ _ _).mp hdrop |>.1]

/-- If every occurrence of a non-empty `k` inside `S` is immediately
followed by `'('`, then neither the space-padded containment test nor the
`startswith (k ++ " ")` test matches. -/
theorem no_match_of_paren (k S : List Char) (hk : k ≠ [])
    (hocc : ∀ i, i < S.length → k <+: S.drop i →
      (S.drop (i + k.length)).head? = some '(') :
    ¬ ((' ' :: (k ++ [' '])) <:+: (' ' :: (S ++ [' ']))) ∧
    ¬ ((k ++ [' ']) <+: S) := by
  have hbound : ∀ i, k <+: S.drop i → i < S.length := by
    intro i hpre
    by_contra hge
    rw [List.drop_eq_nil_of_le (by omega)] at hpre
    exact hk (List.prefix_nil.mp hpre)
  constructor
  · rintro ⟨a, b, hab⟩
    cases a with
    | nil =>
        have hab2 : (k ++ [' ']) ++ b = S ++ [' '] := by
          have h0 := congrArg List.tail hab
          simpa using h0
        have hab' : k ++ ' ' :: b = S ++ [' '] := by
          rw [← hab2]
          simp
        obtain ⟨hpre, hfol⟩ := occ_of_space_delimited k S b hab'
        have h0 : k <+: S.drop 0 := by simpa using hpre
        have := hocc 0 (hbound 0 h0) h0
        rw [Nat.zero_add] at this
        rcases hfol with hsp | hnil
        · rw [this] at hsp
          exact absurd (Option.some.inj hsp) (by decide)
        · rw [hnil] at this
          exact absurd this (by decide)
    | cons a₀ a' =>
        have hab2 : a' ++ ((' ' :: (k ++ [' '])) ++ b) = S ++ [' '] := by
          have h0 := congrArg List.tail hab
          simpa using h0
        have hlen : a'.length + (k.length + 2) + b.length = S.length + 1 := by
          have := congrArg List.length hab2
          simpa [Nat.add_comm, Nat.add_assoc, Nat.add_left_comm] using this
        have hjS : a'.length ≤ S.length := by omega
        have h1 : (' ' :: (k ++ [' '])) ++ b = S.drop a'.length ++ [' '] := by
          have h0 := congrArg (List.drop a'.length) hab2
          rw [List.drop_left] at h0
          rw [List.drop_append_eq_append_drop, Nat.sub_eq_zero_of_le hjS,
            List.drop_zero] at h0
          exact h0
        cases hSj : S.drop a'.length with
        | nil =>
            rw [hSj] at h1
            have hcon := congrArg List.length h1
            simp only [List.length_append, List.length_cons, List.length_nil] at hcon
            omega
        | cons c cs =>
            rw [hSj] at h1
            have h2 : (k ++ [' ']) ++ b = cs ++ [' '] := by
              have h3 := congrArg List.tail h1
              simpa using h3
            have hcs : cs = S.drop (a'.length + 1) := by
              have h3 : (S.drop a'.length).drop 1 = S.drop (a'.length + 1) := by
                rw [List.drop_drop]
              rw [hSj] at h3
              simpa using h3
            have hab' : k ++ ' ' :: b = cs ++ [' '] := by
              rw [← h2]
              simp
            obtain ⟨hpre, hfol⟩ := occ_of_space_delimited k cs b hab'
            rw [hcs] at hpre hfol
            have hb := hbound (a'.length + 1) hpre
            have hres := hocc (a'.length + 1) hb hpre
            rw [show (S.drop (a'.length + 1)).drop k.length =
                S.drop (a'.length + 1 + k.length) by
              rw [List.drop_drop, Nat.add_comm]] at hfol
            rcases hfol with hsp | hnil
            · rw [hres] at hsp
              exact absurd (Option.some.inj hsp) (by decide)
            · rw [hnil] at hres
              exact absurd hres (by decide)
  · rintro ⟨t, ht⟩
    -- ht : (k ++ [' ']) ++ t = S
    have hS : k ++ ' ' :: t = S ++ [] := by
      rw [← ht]
      simp
    rw [List.append_nil] at hS
    have hpre : k <+: S.drop 0 := by
      rw [List.drop_zero, ← hS]
      exact List.prefix_append k (' ' :: t)
    have := hocc 0 (hbound 0 hpre) hpre
    rw [Nat.zero_add, ← hS, List.drop_left k (' ' :: t)] at this
    exact absurd (Option.some.inj this) (by decide)

/-- The stripped list sits inside the original list between all-whitespace
margins. -/
theorem strip_decomp (l : List Char) :
    ∃ pre post,
      l = pre ++ ((l.dropWhile pyIsSpace).reverse.dropWhile pyIsSpace).reverse
        ++ post ∧ ∀ c ∈ post, pyIsSpace c = true := by
  refine ⟨l.takeWhile pyIsSpace,
    ((l.dropWhile pyIsSpace).reverse.takeWhile pyIsSpace).reverse, ?_, ?_⟩
  · conv_lhs => rw [← List.takeWhile_append_dropWhile pyIsSpace l]
    rw [List.append_assoc]
    congr 1
    conv_lhs => rw [← List.reverse_reverse (l.dropWhile pyIsSpace),
      ← List.takeWhile_append_dropWhile pyIsSpace (l.dropWhile pyIsSpace).reverse]
    rw [List.reverse_append]
  · intro c hc
    rw [List.mem_reverse] at hc
    exact List.mem_takeWhile_imp hc

/-- An occurrence-follows-`'('` hypothesis on a list transfers to its
stripped form. -/
theorem occ_strip (l k : List Char) (hk : k ≠ [])
    (hocc : ∀ i, i < l.length → k <+: l.drop i →
      (l.drop (i + k.length)).head? = some '(') :
    ∀ i, i < (((l.dropWhile pyIsSpace).reverse.dropWhile pyIsSpace).reverse).length →
      k <+: (((l.dropWhile pyIsSpace).reverse.dropWhile pyIsSpace).reverse).drop i →
      ((((l.dropWhile pyIsSpace).reverse.dropWhile pyIsSpace).reverse).drop
        (i + k.length)).head? = some '(' := by
  obtain ⟨pre, post, hl, hpost⟩ := strip_decomp l
  set A := ((l.dropWhile pyIsSpace).reverse.dropWhile pyIsSpace).reverse with hA
  intro i hi hki
  have hik : i + k.length ≤ A.length := by
    have h1 := hki.length_le
    rw [List.length_drop] at h1
    omega
  have hsplit : ∀ j, j ≤ A.length → l.drop (pre.length + j) = A.drop j ++ post := by
    intro j hj
    rw [hl]
    rw [List.append_assoc]
    have h1 : (pre ++ (A ++ post)).drop (pre.length + j) =
        ((pre ++ (A ++ post)).drop pre.length).drop j := by
      rw [List.drop_drop, Nat.add_comm]
    rw [h1, List.drop_left pre (A ++ post),
      List.drop_append_eq_append_drop, Nat.sub_eq_zero_of_le hj, List.drop_zero]
  have hpre2 : k <+: l.drop (pre.length + i) := by
    rw [hsplit i (by omega)]
    exact hki.trans (List.prefix_append (A.drop i) post)
  have hlt : pre.length + i < l.length := by
    by_contra hge
    rw [List.drop_eq_nil_of_le (by omega)] at hpre2
    exact hk (List.prefix_nil.mp hpre2)
  have hres := hocc (pre.length + i) hlt hpre2
  rw [show pre.length + i + k.length = pre.length + (i + k.length) by omega,
    hsplit (i + k.length) hik] at hres
  cases hcase : A.drop (i + k.length) with
  | nil =>
      exfalso
      rw [hcase, List.nil_append] at hres
      cases hp : post with
      | nil => rw [hp] at hres; exact absurd hres (by decide)
      | cons c cs =>
          rw [hp, List.head?_cons] at hres
          have hcmem : c ∈ post := by rw [hp]; exact List.mem_cons_self c cs
          have hsp := hpost c hcmem
          rw [Option.some.inj hres] at hsp
          exact absurd hsp (by decide)
  | cons c cs =>
      rw [hcase] at hres
      simp only [List.cons_append, List.head?_cons] at hres
      rw [List.head?_cons]
      exact hres

/-- A non-matching keyword under both validator tests, given the
occurrence hypothesis on the (uppercased) string. -/
theorem keywordMatches_eq_false (U K : String) (hk : K.toList ≠ [])
    (hocc : ∀ i, i < U.toList.length → K.toList <+: U.toList.drop i →
      (U.toList.drop (i + K.toList.length)).head? = some '(') :
    keywordMatches U K = false := by
  have h := no_match_of_paren K.toList U.toList hk hocc
  unfold keywordMatches pyIn pyStartsWith
  rw [Bool.or_eq_false_iff]
  constructor
  · rw [decide_eq_false_iff_not]
    intro hcon
    apply h.1
    have h1 : (" " ++ K ++ " ").toList = ' ' :: (K.toList ++ [' ']) := by
      rw [show (" " ++ K ++ " ").toList = (" " ++ K).toList ++ " ".toList from
          String.data_append _ _,
        show (" " ++ K).toList = " ".toList ++ K.toList from String.data_append _ _]
      rfl
    have h2 : (" " ++ U ++ " ").toList = ' ' :: (U.toList ++ [' ']) := by
      rw [show (" " ++ U ++ " ").toList = (" " ++ U).toList ++ " ".toList from
          String.data_append _ _,
        show (" " ++ U).toList = " ".toList ++ U.toList from String.data_append _ _]
      rfl
    rw [h1, h2] at hcon
    exact hcon
  · rw [decide_eq_false_iff_not]
    intro hcon
    apply h.2
    rw [show (K ++ " ").toList = K.toList ++ [' '] from String.data_append _ _] at hcon
    exact hcon

set_option maxRecDepth 8192 in
/-- C10: for a single-statement SELECT in which every destructive-keyword
occurrence (in the uppercased SQL) is immediately followed by an opening
parenthesis — as in the planner-mandated
`CAST(REPLACE(REPLACE(col, '$', ''), ',', '') AS REAL)` pattern — the
blocking validator returns safe with no warnings, and the advisory
validator emits no destructive-operation warning. -/
theorem C10_paren_keyword_occurrences_not_flagged (sql : String)
    (hocc : ∀ k ∈ destructive_keywords, ∀ i, i < (pyUpper sql).toList.length →
      k.toList <+: (pyUpper sql).toList.drop i →
      ((pyUpper sql).toList.drop (i + k.toList.length)).head? = some '(')
    (hsingle : pyCharIn ';' (pyRstripSemi sql) = false)
    (hsel : pyStartsWith (pyStrip (pyUpper sql)) "SELECT" = true) :
    sql_validator sql = (true, []) ∧
    ∀ w ∈ validate_sql_query sql, pyIn "Destructive" w = false := by
  have hkm : ∀ k ∈ destructive_keywords, keywordMatches (pyUpper sql) k = false := by
    intro k hkmem
    have hkne : k.toList ≠ [] := by
      fin_cases hkmem <;> decide
    exact keywordMatches_eq_false _ k hkne (hocc k hkmem)
  have hkmS : ∀ k ∈ destructive_keywords,
      keywordMatches (pyStrip (pyUpper sql)) k = false := by
    intro k hkmem
    have hkne : k.toList ≠ [] := by
      fin_cases hkmem <;> decide
    apply keywordMatches_eq_false _ k hkne
    have : (pyStrip (pyUpper sql)).toList =
        (((pyUpper sql).toList.dropWhile pyIsSpace).reverse.dropWhile
          pyIsSpace).reverse := rfl
    rw [this]
    exact occ_strip (pyUpper sql).toList k.toList hkne (hocc k hkmem)
  constructor
  · show (match List.find? (fun k => keywordMatches (pyStrip (pyUpper sql)) k)
        destructive_keywords with
      | some keyword =>
          (false, ["[SQL_SAFETY] BLOCKED: Destructive operation '" ++ keyword ++
            "' detected in query"])
      | Option.none =>
          if pyCharIn ';' (pyRstripSemi sql) then
            (false,
              ["[SQL_SAFETY] BLOCKED: Multiple SQL statements detected (SQL injection risk)"])
          else (true, ([] : List String))) = (true, [])
    rw [List.find?_eq_none.mpr (by
      intro k hkmem
      rw [hkmS k hkmem]
      exact Bool.false_ne_true)]
    rw [if_neg (by rw [hsingle]; exact Bool.false_ne_true)]
  · have hval : validate_sql_query sql =
        (if ¬ pyIn "WHERE" (pyUpper sql) ∧ ¬ pyIn "LIMIT" (pyUpper sql) then
          ["[SQL_VALIDATOR] WARNING: Query has no WHERE or LIMIT clause (full table scan)"]
        else []) := by
      show ((destructive_keywords.filter
          (fun k => keywordMatches (pyUpper sql) k)).map
            (fun k => "[SQL_VALIDATOR] WARNING: Destructive operation '" ++ k ++
              "' detected in query") ++
        (if pyCharIn ';' (pyRstripSemi sql) then
          ["[SQL_VALIDATOR] WARNING: Multiple SQL statements detected (SQL injection risk)"]
         else []) ++
        (if ¬ pyStartsWith (pyStrip (pyUpper sql)) "SELECT" then
          ["[SQL_VALIDATOR] WARNING: Non-SELECT query detected"]
         else []) ++
        (if ¬ pyIn "WHERE" (pyUpper sql) ∧ ¬ pyIn "LIMIT" (pyUpper sql) then
          ["[SQL_VALIDATOR] WARNING: Query has no WHERE or LIMIT clause (full table scan)"]
         else [])) = _
      rw [List.filter_eq_nil_iff.mpr (by
          intro k hkmem
          rw [hkm k hkmem]
          exact Bool.false_ne_true),
        List.map_nil,
        if_neg (by rw [hsingle]; exact Bool.false_ne_true),
        if_neg (by rw [hsel]; exact not_not_intro rfl)]
      simp
    intro w hw
    rw [hval] at hw
    split at hw
    · rw [List.mem_singleton.mp hw]
      decide
    · cases hw

set_option maxRecDepth 200000 in
/-- Witness for C10 at the planner-mandated currency pattern. -/
theorem C10_paren_keyword_occurrences_not_flagged_witness :
    sql_validator
      "SELECT CAST(REPLACE(REPLACE(payment, '$', ''), ',', '') AS REAL) FROM vendor_payments" =
      (true, []) ∧
    ∀ w ∈ validate_sql_query
      "SELECT CAST(REPLACE(REPLACE(payment, '$', ''), ',', '') AS REAL) FROM vendor_payments",
      pyIn "Destructive" w = false :=
  C10_paren_keyword_occurrences_not_flagged
    "SELECT CAST(REPLACE(REPLACE(payment, '$', ''), ',', '') AS REAL) FROM vendor_payments"
    (by decide) (by decide) (by decide)

end SpendSpotter
